import Mathlib

/-!
Verification of the tire-limit engine (`src/core/limits.py`).

The module is embedded shallowly over the real numbers: every Python float
is modelled as a real, `float('inf')` sentinels are modelled by the
explicit two-constructor type `FVal`, and a constructor that raises
(`TireState.validate` / `TireLimits.__init__`) is modelled as an
`Except String` value carrying the offending field's name.
-/

open scoped Classical

noncomputable section

/-- Tire compound classifications (`TireType` in the source). -/
inductive TireType where
  | street
  | performance
  | race_slick
  | rain
  | winter
deriving DecidableEq

/-- Complete state of a tire (`TireState` dataclass). -/
structure TireState where
  vertical_load : ℝ
  slip_ratio : ℝ
  slip_angle : ℝ
  temperature : ℝ
  wear : ℝ
  pressure : ℝ
  type : TireType := TireType.performance

/-- One row of `FrictionModels.BASE_MU`. -/
structure BaseMu where
  mu_x : ℝ
  mu_y : ℝ
  Fz_ref : ℝ

/-- `FrictionModels.BASE_MU`. -/
def BASE_MU : TireType → BaseMu
  | .street      => ⟨0.9, 0.85, 4000⟩
  | .performance => ⟨1.1, 1.05, 4000⟩
  | .race_slick  => ⟨1.4, 1.35, 3500⟩
  | .rain        => ⟨0.7, 0.65, 4000⟩
  | .winter      => ⟨0.65, 0.6, 4000⟩

/-- One row of `FrictionModels.LOAD_SENSITIVITY`. -/
structure LoadExp where
  exp_x : ℝ
  exp_y : ℝ

/-- `FrictionModels.LOAD_SENSITIVITY`. -/
def LOAD_SENSITIVITY : TireType → LoadExp
  | .street      => ⟨-0.1, -0.12⟩
  | .performance => ⟨-0.15, -0.18⟩
  | .race_slick  => ⟨-0.2, -0.25⟩
  | .rain        => ⟨-0.08, -0.1⟩
  | .winter      => ⟨-0.05, -0.07⟩

/-- `FrictionModels.TEMP_PARAMS` (field names as in the source dict). -/
structure TempParams where
  opt_temp : ℝ
  cold_temp : ℝ
  hot_temp : ℝ
  cold_mu : ℝ
  hot_mu : ℝ

/-- `FrictionModels.TEMP_PARAMS`. -/
def TEMP_PARAMS : TempParams := ⟨80.0, 0.0, 120.0, 0.6, 0.8⟩

/-- `FrictionModels.WEAR_SENSITIVITY`. -/
def WEAR_SENSITIVITY : ℝ := 0.2

/-- `FrictionModels.PRESSURE_OPT`. -/
def PRESSURE_OPT : ℝ := 200.0

/-- `FrictionModels.PRESSURE_SENSITIVITY`. -/
def PRESSURE_SENSITIVITY : ℝ := 0.001

/-- The in-range predicate checked by `TireState.validate`. -/
def TireState.validBounds (s : TireState) : Prop :=
  0 < s.vertical_load ∧
  (-50 ≤ s.temperature ∧ s.temperature ≤ 150) ∧
  (0 ≤ s.wear ∧ s.wear ≤ 1) ∧
  (100 ≤ s.pressure ∧ s.pressure ≤ 400)

/-- `TireState.validate`: raises `ValueError` naming the offending field on
the first violated bound (in source order), returns `True` otherwise.
The raise is modelled as `Except.error` carrying the field's name. -/
def TireState.validate (s : TireState) : Except String Bool :=
  if s.vertical_load ≤ 0 then .error "vertical_load"
  else if ¬ (-50 ≤ s.temperature ∧ s.temperature ≤ 150) then .error "temperature"
  else if ¬ (0 ≤ s.wear ∧ s.wear ≤ 1) then .error "wear"
  else if ¬ (100 ≤ s.pressure ∧ s.pressure ≤ 400) then .error "pressure"
  else .ok true

/-- `TireLimits`: after construction it holds the (validated) state. -/
structure TireLimits where
  state : TireState

/-- `TireLimits.__init__`: validates the state first; only if validation
passes does a `TireLimits` value exist. -/
def TireLimits.init (s : TireState) : Except String TireLimits :=
  s.validate.map fun _ => ⟨s⟩

/-- `TireLimits._calculate_temp_factor`. -/
def TireLimits.calculate_temp_factor (tl : TireLimits) : ℝ :=
  let params := TEMP_PARAMS
  let temp := tl.state.temperature
  if temp ≤ params.opt_temp then
    if temp ≤ params.cold_temp then params.cold_mu
    else
      params.cold_mu + (1.0 - params.cold_mu) *
        ((temp - params.cold_temp) / (params.opt_temp - params.cold_temp))
  else
    if params.hot_temp ≤ temp then params.hot_mu
    else
      1.0 - (1.0 - params.hot_mu) *
        ((temp - params.opt_temp) / (params.hot_temp - params.opt_temp))

/-- The dict returned by `TireLimits.get_effective_friction`. -/
structure EffectiveFriction where
  mu_x : ℝ
  mu_y : ℝ
  load_ratio : ℝ
  temp_factor : ℝ
  wear_factor : ℝ
  pressure_factor : ℝ
  base_mu_x : ℝ
  base_mu_y : ℝ
  Fz_ref : ℝ

/-- `TireLimits.get_effective_friction`.  Python `**` on a positive base
with real exponent is `Real.rpow`. -/
def TireLimits.get_effective_friction (tl : TireLimits) : EffectiveFriction :=
  let base := BASE_MU tl.state.type
  let load_exp := LOAD_SENSITIVITY tl.state.type
  let Fz_ref := base.Fz_ref
  let load_ratio := tl.state.vertical_load / Fz_ref
  let mu_x_load := base.mu_x * Real.rpow load_ratio load_exp.exp_x
  let mu_y_load := base.mu_y * Real.rpow load_ratio load_exp.exp_y
  let temp_factor := tl.calculate_temp_factor
  let wear_factor := 1.0 - WEAR_SENSITIVITY * tl.state.wear
  let pressure_diff := |tl.state.pressure - PRESSURE_OPT|
  let pressure_factor0 := 1.0 - PRESSURE_SENSITIVITY * pressure_diff
  let pressure_factor := max 0.8 (min 1.0 pressure_factor0)
  let mu_x_eff0 := mu_x_load * temp_factor * wear_factor * pressure_factor
  let mu_y_eff0 := mu_y_load * temp_factor * wear_factor * pressure_factor
  let mu_x_eff := max 0.1 (min 2.0 mu_x_eff0)
  let mu_y_eff := max 0.1 (min 2.0 mu_y_eff0)
  { mu_x := mu_x_eff
    mu_y := mu_y_eff
    load_ratio := load_ratio
    temp_factor := temp_factor
    wear_factor := wear_factor
    pressure_factor := pressure_factor
    base_mu_x := base.mu_x
    base_mu_y := base.mu_y
    Fz_ref := Fz_ref }

/-- A Python float that is either an ordinary (finite) value or the
`float('inf')` sentinel the limit checks produce on a ≈0 denominator. -/
inductive FVal where
  | fin : ℝ → FVal
  | inf : FVal

/-- Python `v <= c` where `v` may be `float('inf')` (then false). -/
def FVal.leR : FVal → ℝ → Prop
  | .fin x, c => x ≤ c
  | .inf, _ => False

/-- Python `v > c` where `v` may be `float('inf')` (then true). -/
def FVal.gtR : FVal → ℝ → Prop
  | .fin x, c => c < x
  | .inf, _ => True

/-- The dict returned by `TireLimits.friction_ellipse_limit`. -/
structure EllipseResult where
  within_limit : Prop
  usage : FVal
  ellipse_value : FVal
  Fx_usage : FVal
  Fy_usage : FVal
  Fx_max : ℝ
  Fy_max : ℝ
  model : String

/-- `TireLimits.friction_ellipse_limit`. -/
def TireLimits.friction_ellipse_limit (tl : TireLimits) (Fx Fy : ℝ) : EllipseResult :=
  let mu := tl.get_effective_friction
  let Fz := tl.state.vertical_load
  let Fx_max := mu.mu_x * Fz
  let Fy_max := mu.mu_y * Fz
  let fx_ratio_sq : FVal :=
    if |Fx_max| < 1e-9 then (if 1e-9 < |Fx| then .inf else .fin 0.0)
    else .fin ((Fx / Fx_max) ^ 2)
  let fy_ratio_sq : FVal :=
    if |Fy_max| < 1e-9 then (if 1e-9 < |Fy| then .inf else .fin 0.0)
    else .fin ((Fy / Fy_max) ^ 2)
  let ellipse_value : FVal :=
    match fx_ratio_sq, fy_ratio_sq with
    | .fin a, .fin b => .fin (a + b)
    | _, _ => .inf
  let usage : FVal :=
    match ellipse_value with
    | .fin v => .fin (Real.sqrt v)
    | .inf => .inf
  { within_limit := ellipse_value.leR 1.0
    usage := usage
    ellipse_value := ellipse_value
    Fx_usage := if 1e-9 < |Fx_max| then .fin (|Fx| / Fx_max) else .inf
    Fy_usage := if 1e-9 < |Fy_max| then .fin (|Fy| / Fy_max) else .inf
    Fx_max := Fx_max
    Fy_max := Fy_max
    model := "ellipse" }

/-- The dict returned by `TireLimits.combined_slip_limit`. -/
structure CombinedResult where
  within_limit : Prop
  usage : FVal
  Fx_max_effective : ℝ
  Fy_max_effective : ℝ
  lateral_reduction : ℝ
  longitudinal_reduction : ℝ
  slip_factor : ℝ
  model : String

/-- `TireLimits.combined_slip_limit` (default `coupling_factor = 0.3`);
`math.radians(8.0)` is `8.0 * π / 180`. -/
def TireLimits.combined_slip_limit (tl : TireLimits) (Fx Fy : ℝ)
    (coupling_factor : ℝ := 0.3) : CombinedResult :=
  let mu := tl.get_effective_friction
  let Fz := tl.state.vertical_load
  let Fx_max_nom := mu.mu_x * Fz
  let Fy_max_nom := mu.mu_y * Fz
  let coupling := max 0.0 (min 0.5 coupling_factor)
  let Fx_usage := if 1e-9 < Fx_max_nom then |Fx| / Fx_max_nom else 0.0
  let Fy_usage := if 1e-9 < Fy_max_nom then |Fy| / Fy_max_nom else 0.0
  let lateral_reduction := max 0.5 (min 1.0 (1.0 - coupling * Fx_usage))
  let longitudinal_reduction := max 0.5 (min 1.0 (1.0 - coupling * Fy_usage))
  let Fx_max_eff := Fx_max_nom * longitudinal_reduction
  let Fy_max_eff0 := Fy_max_nom * lateral_reduction
  let optimal_slip := 8.0 * Real.pi / 180
  let slip_angle := |tl.state.slip_angle|
  let slip_factor0 :=
    if slip_angle ≤ optimal_slip then Real.sin (Real.pi * slip_angle / (2 * optimal_slip))
    else 1.0 - 0.2 * (slip_angle - optimal_slip) / optimal_slip
  let slip_factor := max 0.6 (min 1.0 slip_factor0)
  let Fy_max_eff := Fy_max_eff0 * slip_factor
  let fx_ratio_sq : FVal :=
    if Fx_max_eff < 1e-9 then (if 1e-9 < |Fx| then .inf else .fin 0.0)
    else .fin ((Fx / Fx_max_eff) ^ 2)
  let fy_ratio_sq : FVal :=
    if Fy_max_eff < 1e-9 then (if 1e-9 < |Fy| then .inf else .fin 0.0)
    else .fin ((Fy / Fy_max_eff) ^ 2)
  let usage_sq : FVal :=
    match fx_ratio_sq, fy_ratio_sq with
    | .fin a, .fin b => .fin (a + b)
    | _, _ => .inf
  let usage : FVal :=
    match usage_sq with
    | .fin v => .fin (Real.sqrt v)
    | .inf => .inf
  { within_limit := usage_sq.leR 1.0
    usage := usage
    Fx_max_effective := Fx_max_eff
    Fy_max_effective := Fy_max_eff
    lateral_reduction := lateral_reduction
    longitudinal_reduction := longitudinal_reduction
    slip_factor := slip_factor
    model := "combined_slip" }

/-- The three stability statuses of `stability_assessment`. -/
inductive Status where
  | STABLE
  | WARNING
  | UNSTABLE
deriving DecidableEq

/-- Python `math.atan2 y x` (the argument of the complex number `x + i·y`). -/
def atan2 (y x : ℝ) : ℝ := Complex.arg ⟨x, y⟩

/-- Python `math.copysign(math.pi / 2, y)` (no negative zero over ℝ). -/
def copysign_halfpi (y : ℝ) : ℝ := if y < 0 then -(Real.pi / 2) else Real.pi / 2

/-- The current force angle used by `stability_assessment`:
`atan2(Fy, Fx)` when `|Fx| > 1e-9`, else `copysign(π/2, Fy)`. -/
def currentAngle (Fx Fy : ℝ) : ℝ :=
  if 1e-9 < |Fx| then atan2 Fy Fx else copysign_halfpi Fy

/-- The dict returned by `TireLimits.stability_assessment`
(`force_margin_pct` stands for the `"force_margin_%"` key). -/
structure StabilityResult where
  status : Status
  color : String
  action : String
  ellipse_usage : FVal
  combined_usage : FVal
  force_margin_N : ℝ
  force_margin_pct : ℝ
  current_angle_deg : ℝ
  max_force_at_angle : ℝ

/-- `TireLimits.stability_assessment` (default `warning_threshold = 0.85`);
`math.hypot` is `Real.sqrt (Fx ^ 2 + Fy ^ 2)`, `math.degrees x` is
`x * 180 / π`. -/
def TireLimits.stability_assessment (tl : TireLimits) (Fx Fy : ℝ)
    (warning_threshold : ℝ := 0.85) : StabilityResult :=
  let ellipse_check := tl.friction_ellipse_limit Fx Fy
  let combined_check := tl.combined_slip_limit Fx Fy 0.3
  let status :=
    if ellipse_check.within_limit then
      if ellipse_check.usage.gtR warning_threshold then Status.WARNING else Status.STABLE
    else Status.UNSTABLE
  let color :=
    if ellipse_check.within_limit then
      if ellipse_check.usage.gtR warning_threshold then "🟡" else "🟢"
    else "🔴"
  let action :=
    if ellipse_check.within_limit then
      if ellipse_check.usage.gtR warning_threshold then "APPROACHING LIMIT" else "OK"
    else "REDUCE FORCE"
  let current_angle := currentAngle Fx Fy
  let mu := tl.get_effective_friction
  let Fz := tl.state.vertical_load
  let cos_theta := Real.cos current_angle
  let sin_theta := Real.sin current_angle
  let term1 : FVal := if 1e-9 < mu.mu_x then .fin ((cos_theta / mu.mu_x) ^ 2) else .inf
  let term2 : FVal := if 1e-9 < mu.mu_y then .fin ((sin_theta / mu.mu_y) ^ 2) else .inf
  let max_force : ℝ :=
    match term1, term2 with
    | .fin a, .fin b =>
        let denom := Real.sqrt (a + b)
        if 1e-9 < denom then Fz / denom else 0.0
    | _, _ => 0.0
  let current_force := Real.sqrt (Fx ^ 2 + Fy ^ 2)
  let margin := max_force - current_force
  let margin_pct :=
    if 1e-9 < max_force then (margin / max_force) * 100
    else if current_force < 1e-9 then 0.0 else -100.0
  { status := status
    color := color
    action := action
    ellipse_usage := ellipse_check.usage
    combined_usage := combined_check.usage
    force_margin_N := margin
    force_margin_pct := margin_pct
    current_angle_deg := current_angle * 180 / Real.pi
    max_force_at_angle := max_force }

/-- Nominal longitudinal maximum `mu_x * Fz` (named view of the lets the
limit checks share). -/
def TireLimits.Fx_max (tl : TireLimits) : ℝ :=
  tl.get_effective_friction.mu_x * tl.state.vertical_load

/-- Nominal lateral maximum `mu_y * Fz`. -/
def TireLimits.Fy_max (tl : TireLimits) : ℝ :=
  tl.get_effective_friction.mu_y * tl.state.vertical_load

/-- `fx_ratio_sq` of the ellipse check. -/
def fxRatioSqE (tl : TireLimits) (Fx : ℝ) : FVal :=
  if |tl.Fx_max| < 1e-9 then (if 1e-9 < |Fx| then .inf else .fin 0.0)
  else .fin ((Fx / tl.Fx_max) ^ 2)

/-- `fy_ratio_sq` of the ellipse check. -/
def fyRatioSqE (tl : TireLimits) (Fy : ℝ) : FVal :=
  if |tl.Fy_max| < 1e-9 then (if 1e-9 < |Fy| then .inf else .fin 0.0)
  else .fin ((Fy / tl.Fy_max) ^ 2)

/-- `ellipse_value` of the ellipse check. -/
def ellipseValueE (tl : TireLimits) (Fx Fy : ℝ) : FVal :=
  match fxRatioSqE tl Fx, fyRatioSqE tl Fy with
  | .fin a, .fin b => .fin (a + b)
  | _, _ => .inf

/-- `usage` of the ellipse check. -/
def usageE (tl : TireLimits) (Fx Fy : ℝ) : FVal :=
  match ellipseValueE tl Fx Fy with
  | .fin v => .fin (Real.sqrt v)
  | .inf => .inf

/-- `coupling` clamped to [0, 0.5]. -/
def couplingC (cf : ℝ) : ℝ := max 0.0 (min 0.5 cf)

/-- `Fx_usage` of the combined-slip check. -/
def FxUsageNom (tl : TireLimits) (Fx : ℝ) : ℝ :=
  if 1e-9 < tl.Fx_max then |Fx| / tl.Fx_max else 0.0

/-- `Fy_usage` of the combined-slip check. -/
def FyUsageNom (tl : TireLimits) (Fy : ℝ) : ℝ :=
  if 1e-9 < tl.Fy_max then |Fy| / tl.Fy_max else 0.0

/-- `lateral_reduction` of the combined-slip check. -/
def lateralReduction (tl : TireLimits) (Fx cf : ℝ) : ℝ :=
  max 0.5 (min 1.0 (1.0 - couplingC cf * FxUsageNom tl Fx))

/-- `longitudinal_reduction` of the combined-slip check. -/
def longitudinalReduction (tl : TireLimits) (Fy cf : ℝ) : ℝ :=
  max 0.5 (min 1.0 (1.0 - couplingC cf * FyUsageNom tl Fy))

/-- `Fx_max_eff` of the combined-slip check. -/
def FxMaxEff (tl : TireLimits) (Fy cf : ℝ) : ℝ :=
  tl.Fx_max * longitudinalReduction tl Fy cf

/-- `slip_factor` of the combined-slip check. -/
def slipFactor (tl : TireLimits) : ℝ :=
  max 0.6 (min 1.0
    (if |tl.state.slip_angle| ≤ 8.0 * Real.pi / 180 then
      Real.sin (Real.pi * |tl.state.slip_angle| / (2 * (8.0 * Real.pi / 180)))
    else 1.0 - 0.2 * (|tl.state.slip_angle| - 8.0 * Real.pi / 180) / (8.0 * Real.pi / 180)))

/-- `Fy_max_eff` of the combined-slip check. -/
def FyMaxEff (tl : TireLimits) (Fx cf : ℝ) : ℝ :=
  tl.Fy_max * lateralReduction tl Fx cf * slipFactor tl

/-- `fx_ratio_sq` of the combined-slip check. -/
def fxRatioSqC (tl : TireLimits) (Fx Fy cf : ℝ) : FVal :=
  if FxMaxEff tl Fy cf < 1e-9 then (if 1e-9 < |Fx| then .inf else .fin 0.0)
  else .fin ((Fx / FxMaxEff tl Fy cf) ^ 2)

/-- `fy_ratio_sq` of the combined-slip check. -/
def fyRatioSqC (tl : TireLimits) (Fx Fy cf : ℝ) : FVal :=
  if FyMaxEff tl Fx cf < 1e-9 then (if 1e-9 < |Fy| then .inf else .fin 0.0)
  else .fin ((Fy / FyMaxEff tl Fx cf) ^ 2)

/-- `usage_sq` of the combined-slip check. -/
def usageSqC (tl : TireLimits) (Fx Fy cf : ℝ) : FVal :=
  match fxRatioSqC tl Fx Fy cf, fyRatioSqC tl Fx Fy cf with
  | .fin a, .fin b => .fin (a + b)
  | _, _ => .inf

/-- `usage` of the combined-slip check. -/
def usageC (tl : TireLimits) (Fx Fy cf : ℝ) : FVal :=
  match usageSqC tl Fx Fy cf with
  | .fin v => .fin (Real.sqrt v)
  | .inf => .inf

/-- The status computed by `stability_assessment`. -/
def statusOf (tl : TireLimits) (Fx Fy wt : ℝ) : Status :=
  if (tl.friction_ellipse_limit Fx Fy).within_limit then
    if (tl.friction_ellipse_limit Fx Fy).usage.gtR wt then Status.WARNING else Status.STABLE
  else Status.UNSTABLE

/-- The color computed by `stability_assessment`. -/
def colorOf (tl : TireLimits) (Fx Fy wt : ℝ) : String :=
  if (tl.friction_ellipse_limit Fx Fy).within_limit then
    if (tl.friction_ellipse_limit Fx Fy).usage.gtR wt then "🟡" else "🟢"
  else "🔴"

/-- The action computed by `stability_assessment`. -/
def actionOf (tl : TireLimits) (Fx Fy wt : ℝ) : String :=
  if (tl.friction_ellipse_limit Fx Fy).within_limit then
    if (tl.friction_ellipse_limit Fx Fy).usage.gtR wt then "APPROACHING LIMIT" else "OK"
  else "REDUCE FORCE"

/-- `term1` of the margin computation. -/
def term1S (tl : TireLimits) (Fx Fy : ℝ) : FVal :=
  if 1e-9 < tl.get_effective_friction.mu_x then
    .fin ((Real.cos (currentAngle Fx Fy) / tl.get_effective_friction.mu_x) ^ 2)
  else .inf

/-- `term2` of the margin computation. -/
def term2S (tl : TireLimits) (Fx Fy : ℝ) : FVal :=
  if 1e-9 < tl.get_effective_friction.mu_y then
    .fin ((Real.sin (currentAngle Fx Fy) / tl.get_effective_friction.mu_y) ^ 2)
  else .inf

/-- `max_force` of the margin computation. -/
def maxForceS (tl : TireLimits) (Fx Fy : ℝ) : ℝ :=
  match term1S tl Fx Fy, term2S tl Fx Fy with
  | .fin a, .fin b =>
      let denom := Real.sqrt (a + b)
      if 1e-9 < denom then tl.state.vertical_load / denom else 0.0
  | _, _ => 0.0

/-- `current_force` of the margin computation (`math.hypot`). -/
def currentForceS (Fx Fy : ℝ) : ℝ := Real.sqrt (Fx ^ 2 + Fy ^ 2)

/-- `margin` of the margin computation. -/
def marginS (tl : TireLimits) (Fx Fy : ℝ) : ℝ :=
  maxForceS tl Fx Fy - currentForceS Fx Fy

/-- `margin_pct` of the margin computation. -/
def marginPctS (tl : TireLimits) (Fx Fy : ℝ) : ℝ :=
  if 1e-9 < maxForceS tl Fx Fy then (marginS tl Fx Fy / maxForceS tl Fx Fy) * 100
  else if currentForceS Fx Fy < 1e-9 then 0.0 else -100.0

/-- The reference state of the spec's end-to-end example:
Fz = 4000 N, wear = 0, pressure = 200 kPa, T = 80 °C, performance compound. -/
def refState : TireState :=
  { vertical_load := 4000
    slip_ratio := 0
    slip_angle := 0
    temperature := 80
    wear := 0
    pressure := 200
    type := TireType.performance }

/-- The engine built on `refState`. -/
def refLimits : TireLimits := ⟨refState⟩

/-- A validated state with a vanishing vertical load (Fz = 1e-10 N): every
maximum force falls below the 1e-9 numeric threshold. -/
def tinyState : TireState :=
  { vertical_load := 1e-10
    slip_ratio := 0
    slip_angle := 0
    temperature := 80
    wear := 0
    pressure := 200
    type := TireType.performance }

/-- `e` is the name of a field of `s` whose validation bound is violated. -/
def offendingField (e : String) (s : TireState) : Prop :=
  (e = "vertical_load" ∧ s.vertical_load ≤ 0) ∨
  (e = "temperature" ∧ ¬ (-50 ≤ s.temperature ∧ s.temperature ≤ 150)) ∨
  (e = "wear" ∧ ¬ (0 ≤ s.wear ∧ s.wear ≤ 1)) ∨
  (e = "pressure" ∧ ¬ (100 ≤ s.pressure ∧ s.pressure ≤ 400))

theorem friction_ellipse_limit_eq (tl : TireLimits) (Fx Fy : ℝ) :
    tl.friction_ellipse_limit Fx Fy =
      { within_limit := (ellipseValueE tl Fx Fy).leR 1.0
        usage := usageE tl Fx Fy
        ellipse_value := ellipseValueE tl Fx Fy
        Fx_usage := if 1e-9 < |tl.Fx_max| then .fin (|Fx| / tl.Fx_max) else .inf
        Fy_usage := if 1e-9 < |tl.Fy_max| then .fin (|Fy| / tl.Fy_max) else .inf
        Fx_max := tl.Fx_max
        Fy_max := tl.Fy_max
        model := "ellipse" } := rfl

theorem combined_slip_limit_eq (tl : TireLimits) (Fx Fy cf : ℝ) :
    tl.combined_slip_limit Fx Fy cf =
      { within_limit := (usageSqC tl Fx Fy cf).leR 1.0
        usage := usageC tl Fx Fy cf
        Fx_max_effective := FxMaxEff tl Fy cf
        Fy_max_effective := FyMaxEff tl Fx cf
        lateral_reduction := lateralReduction tl Fx cf
        longitudinal_reduction := longitudinalReduction tl Fy cf
        slip_factor := slipFactor tl
        model := "combined_slip" } := rfl

theorem stability_assessment_eq (tl : TireLimits) (Fx Fy wt : ℝ) :
    tl.stability_assessment Fx Fy wt =
      { status := statusOf tl Fx Fy wt
        color := colorOf tl Fx Fy wt
        action := actionOf tl Fx Fy wt
        ellipse_usage := (tl.friction_ellipse_limit Fx Fy).usage
        combined_usage := (tl.combined_slip_limit Fx Fy 0.3).usage
        force_margin_N := marginS tl Fx Fy
        force_margin_pct := marginPctS tl Fx Fy
        current_angle_deg := currentAngle Fx Fy * 180 / Real.pi
        max_force_at_angle := maxForceS tl Fx Fy } := rfl

theorem not_leR_inf (c : ℝ) : ¬ FVal.inf.leR c := fun hh => hh

theorem ellipseValueE_inf_left (tl : TireLimits) (Fx Fy : ℝ)
    (h : fxRatioSqE tl Fx = .inf) : ellipseValueE tl Fx Fy = .inf := by
  unfold ellipseValueE
  rw [h]

theorem ellipseValueE_inf_right (tl : TireLimits) (Fx Fy : ℝ)
    (h : fyRatioSqE tl Fy = .inf) : ellipseValueE tl Fx Fy = .inf := by
  unfold ellipseValueE
  rw [h]
  cases fxRatioSqE tl Fx <;> rfl

theorem usageE_inf (tl : TireLimits) (Fx Fy : ℝ)
    (h : ellipseValueE tl Fx Fy = .inf) : usageE tl Fx Fy = .inf := by
  unfold usageE
  rw [h]

theorem usageSqC_inf_left (tl : TireLimits) (Fx Fy cf : ℝ)
    (h : fxRatioSqC tl Fx Fy cf = .inf) : usageSqC tl Fx Fy cf = .inf := by
  unfold usageSqC
  rw [h]

theorem usageSqC_inf_right (tl : TireLimits) (Fx Fy cf : ℝ)
    (h : fyRatioSqC tl Fx Fy cf = .inf) : usageSqC tl Fx Fy cf = .inf := by
  unfold usageSqC
  rw [h]
  cases fxRatioSqC tl Fx Fy cf <;> rfl

theorem usageC_inf (tl : TireLimits) (Fx Fy cf : ℝ)
    (h : usageSqC tl Fx Fy cf = .inf) : usageC tl Fx Fy cf = .inf := by
  unfold usageC
  rw [h]

theorem effective_friction_bounds (tl : TireLimits) :
    0.1 ≤ tl.get_effective_friction.mu_x ∧ tl.get_effective_friction.mu_x ≤ 2.0 ∧
    0.1 ≤ tl.get_effective_friction.mu_y ∧ tl.get_effective_friction.mu_y ≤ 2.0 := by
  refine ⟨?_, ?_, ?_, ?_⟩ <;>
    simp only [TireLimits.get_effective_friction] <;>
    first
      | exact le_max_left _ _
      | exact max_le (by norm_num) (min_le_left _ _)

theorem effective_friction_ref :
    refLimits.get_effective_friction.mu_x = 1.1 ∧
    refLimits.get_effective_friction.mu_y = 1.05 := by
  constructor <;>
  · simp only [refLimits, refState, TireLimits.get_effective_friction,
      TireLimits.calculate_temp_factor, BASE_MU, LOAD_SENSITIVITY, TEMP_PARAMS,
      WEAR_SENSITIVITY, PRESSURE_OPT, PRESSURE_SENSITIVITY]
    norm_num [Real.one_rpow, max_def, min_def]

/-- C10: the `slip_ratio` field is never read by any engine computation:
two states differing only in `slip_ratio` yield identical outputs of
`get_effective_friction`, `friction_ellipse_limit`, `combined_slip_limit`
and `stability_assessment`. -/
theorem slip_ratio_noninterference (s : TireState) (k k' Fx Fy cf wt : ℝ) :
    (TireLimits.mk { s with slip_ratio := k }).get_effective_friction
      = (TireLimits.mk { s with slip_ratio := k' }).get_effective_friction ∧
    (TireLimits.mk { s with slip_ratio := k }).friction_ellipse_limit Fx Fy
      = (TireLimits.mk { s with slip_ratio := k' }).friction_ellipse_limit Fx Fy ∧
    (TireLimits.mk { s with slip_ratio := k }).combined_slip_limit Fx Fy cf
      = (TireLimits.mk { s with slip_ratio := k' }).combined_slip_limit Fx Fy cf ∧
    (TireLimits.mk { s with slip_ratio := k }).stability_assessment Fx Fy wt
      = (TireLimits.mk { s with slip_ratio := k' }).stability_assessment Fx Fy wt :=
  ⟨rfl, rfl, rfl, rfl⟩

/-- C3: for every validated tire state the effective friction coefficients
`mu_x` and `mu_y` lie within [0.1, 2.0]. -/
theorem mu_within_bounds (tl : TireLimits) (h : tl.state.validBounds) :
    0.1 ≤ tl.get_effective_friction.mu_x ∧ tl.get_effective_friction.mu_x ≤ 2.0 ∧
    0.1 ≤ tl.get_effective_friction.mu_y ∧ tl.get_effective_friction.mu_y ≤ 2.0 :=
  effective_friction_bounds tl

/-- Witness for C3 at the reference state. -/
theorem mu_within_bounds_witness :
    refState.validBounds ∧
    (0.1 ≤ refLimits.get_effective_friction.mu_x ∧
      refLimits.get_effective_friction.mu_x ≤ 2.0 ∧
      0.1 ≤ refLimits.get_effective_friction.mu_y ∧
      refLimits.get_effective_friction.mu_y ≤ 2.0) :=
  ⟨by norm_num [TireState.validBounds, refState],
    mu_within_bounds refLimits (by norm_num [TireState.validBounds, refState, refLimits])⟩

/-- C8 counterexample: at the validated state with Fz = 1e-10 N (maxima
below the 1e-9 threshold), direction (1, 0) and warning_threshold = 0.85,
the status jumps from stable straight to unstable: no force magnitude ever
produces the warning status. -/
theorem tiny_state_no_warning :
    {c : ℝ | ((TireLimits.mk tinyState).stability_assessment c 0 0.85).status
      = Status.WARNING} = ∅ := by
  rw [Set.eq_empty_iff_forall_not_mem]
  intro c hc
  rw [Set.mem_setOf_eq] at hc
  have hb := effective_friction_bounds (TireLimits.mk tinyState)
  have hFz : (TireLimits.mk tinyState).state.vertical_load = 1e-10 := by
    norm_num [tinyState]
  have hfxm : |(TireLimits.mk tinyState).Fx_max| < 1e-9 := by
    unfold TireLimits.Fx_max
    rw [hFz, abs_of_nonneg (by nlinarith [hb.1])]
    nlinarith [hb.1, hb.2.1]
  have hfym : |(TireLimits.mk tinyState).Fy_max| < 1e-9 := by
    unfold TireLimits.Fy_max
    rw [hFz, abs_of_nonneg (by nlinarith [hb.2.2.1])]
    nlinarith [hb.2.2.1, hb.2.2.2]
  have hfy0 : fyRatioSqE (TireLimits.mk tinyState) 0 = .fin 0.0 := by
    unfold fyRatioSqE
    rw [if_pos hfym, if_neg (by norm_num)]
  rcases lt_or_le (1e-9 : ℝ) |c| with hcase | hcase
  · have hfx : fxRatioSqE (TireLimits.mk tinyState) c = .inf := by
      unfold fxRatioSqE
      rw [if_pos hfxm, if_pos hcase]
    have hev := ellipseValueE_inf_left (TireLimits.mk tinyState) c 0 hfx
    simp only [stability_assessment_eq] at hc
    unfold statusOf at hc
    simp only [friction_ellipse_limit_eq, hev] at hc
    split_ifs at hc with h1 h2 <;>
      first
        | exact Status.noConfusion hc
        | exact not_leR_inf _ h1
  · have hfx : fxRatioSqE (TireLimits.mk tinyState) c = .fin 0.0 := by
      unfold fxRatioSqE
      rw [if_pos hfxm, if_neg (not_lt.2 hcase)]
    have hev : ellipseValueE (TireLimits.mk tinyState) c 0 = .fin (0.0 + 0.0) := by
      unfold ellipseValueE
      rw [hfx, hfy0]
    have hus : usageE (TireLimits.mk tinyState) c 0 = .fin (Real.sqrt (0.0 + 0.0)) := by
      unfold usageE
      rw [hev]
    simp only [stability_assessment_eq] at hc
    unfold statusOf at hc
    simp only [friction_ellipse_limit_eq, hev, hus] at hc
    split_ifs at hc with h1 h2 <;>
      first
        | exact Status.noConfusion hc
        | (norm_num [FVal.gtR, Real.sqrt_zero] at h2)
        | (norm_num [FVal.leR] at h1)

/-- C8 (amended): for every validated state whose nominal maxima `Fx_max`
and `Fy_max` both reach the 1e-9 threshold, every fixed nonzero direction
and every warning threshold strictly between 0 and 1, as the force magnitude
grows the status is stable on [0, cw], warning on (cw, cu] and unstable
beyond cu, for thresholds 0 < cw < cu. -/
theorem status_ordering (tl : TireLimits) (dx dy wt : ℝ)
    (hv : tl.state.validBounds)
    (hd : ¬ (dx = 0 ∧ dy = 0))
    (hwt0 : 0 < wt) (hwt1 : wt < 1)
    (hA : 1e-9 ≤ tl.Fx_max) (hB : 1e-9 ≤ tl.Fy_max) :
    ∃ cw cu : ℝ, 0 < cw ∧ cw < cu ∧ ∀ c : ℝ, 0 ≤ c →
      ((c ≤ cw → (tl.stability_assessment (c * dx) (c * dy) wt).status = .STABLE) ∧
       (cw < c → c ≤ cu → (tl.stability_assessment (c * dx) (c * dy) wt).status = .WARNING) ∧
       (cu < c → (tl.stability_assessment (c * dx) (c * dy) wt).status = .UNSTABLE)) := by
  have hA0 : (0 : ℝ) < tl.Fx_max := lt_of_lt_of_le (by norm_num) hA
  have hB0 : (0 : ℝ) < tl.Fy_max := lt_of_lt_of_le (by norm_num) hB
  set K2 := (dx / tl.Fx_max) ^ 2 + (dy / tl.Fy_max) ^ 2 with hK2def
  have hK2 : 0 < K2 := by
    rcases not_and_or.1 hd with h | h
    · exact add_pos_of_pos_of_nonneg
        (pow_two_pos_of_ne_zero (div_ne_zero h (ne_of_gt hA0))) (sq_nonneg _)
    · exact add_pos_of_nonneg_of_pos (sq_nonneg _)
        (pow_two_pos_of_ne_zero (div_ne_zero h (ne_of_gt hB0)))
  set K := Real.sqrt K2 with hKdef
  have hK : 0 < K := Real.sqrt_pos.2 hK2
  have hAne : ¬ |tl.Fx_max| < 1e-9 := by
    rw [abs_of_pos hA0]
    exact not_lt.2 hA
  have hBne : ¬ |tl.Fy_max| < 1e-9 := by
    rw [abs_of_pos hB0]
    exact not_lt.2 hB
  refine ⟨wt / K, 1 / K, div_pos hwt0 hK, by
    rw [div_lt_div_iff hK hK]
    nlinarith, ?_⟩
  intro c hc
  have hfx : fxRatioSqE tl (c * dx) = .fin ((c * dx / tl.Fx_max) ^ 2) := by
    unfold fxRatioSqE
    rw [if_neg hAne]
  have hfy : fyRatioSqE tl (c * dy) = .fin ((c * dy / tl.Fy_max) ^ 2) := by
    unfold fyRatioSqE
    rw [if_neg hBne]
  have hev : ellipseValueE tl (c * dx) (c * dy) = .fin ((c * K) ^ 2) := by
    unfold ellipseValueE
    rw [hfx, hfy]
    congr 1
    rw [mul_pow c K, hKdef, Real.sq_sqrt hK2.le, hK2def]
    ring
  have hus : usageE tl (c * dx) (c * dy) = .fin (c * K) := by
    unfold usageE
    rw [hev]
    show FVal.fin (Real.sqrt ((c * K) ^ 2)) = FVal.fin (c * K)
    rw [Real.sqrt_sq (mul_nonneg hc hK.le)]
  have hwithin : (tl.friction_ellipse_limit (c * dx) (c * dy)).within_limit ↔
      (c * K) ^ 2 ≤ 1 := by
    simp only [friction_ellipse_limit_eq]
    rw [hev]
    norm_num [FVal.leR]
  have hgt : (tl.friction_ellipse_limit (c * dx) (c * dy)).usage.gtR wt ↔ wt < c * K := by
    simp only [friction_ellipse_limit_eq]
    rw [hus]
    norm_num [FVal.gtR]
  refine ⟨fun hcw => ?_, fun hcw hcu => ?_, fun hcu => ?_⟩
  · have h1 : c * K ≤ wt := (le_div_iff hK).1 hcw
    have h2 : (c * K) ^ 2 ≤ 1 := by nlinarith [mul_nonneg hc hK.le]
    simp only [stability_assessment_eq]
    unfold statusOf
    rw [if_pos (hwithin.2 h2), if_neg (fun hg => (not_lt.2 h1) (hgt.1 hg))]
  · have h1 : wt < c * K := (div_lt_iff hK).1 hcw
    have h2 : c * K ≤ 1 := by
      have := (le_div_iff hK).1 hcu
      linarith
    have h3 : (c * K) ^ 2 ≤ 1 := by nlinarith [mul_nonneg hc hK.le]
    simp only [stability_assessment_eq]
    unfold statusOf
    rw [if_pos (hwithin.2 h3), if_pos (hgt.2 h1)]
  · have h1 : 1 < c * K := by
      have := (div_lt_iff hK).1 hcu
      linarith
    have h4 : ¬ (c * K) ^ 2 ≤ 1 := by nlinarith
    simp only [stability_assessment_eq]
    unfold statusOf
    rw [if_neg (fun hw => h4 (hwithin.1 hw))]

/-- Witness for C8 at the reference state, direction (1, 0), threshold 0.85. -/
theorem status_ordering_witness :
    ∃ cw cu : ℝ, 0 < cw ∧ cw < cu ∧ ∀ c : ℝ, 0 ≤ c →
      ((c ≤ cw → (refLimits.stability_assessment (c * 1) (c * 0) 0.85).status = .STABLE) ∧
       (cw < c → c ≤ cu → (refLimits.stability_assessment (c * 1) (c * 0) 0.85).status = .WARNING) ∧
       (cu < c → (refLimits.stability_assessment (c * 1) (c * 0) 0.85).status = .UNSTABLE)) :=
  status_ordering refLimits 1 0 0.85
    (by norm_num [TireState.validBounds, refState, refLimits])
    (by norm_num)
    (by norm_num)
    (by norm_num)
    (by unfold TireLimits.Fx_max
        rw [effective_friction_ref.1]
        norm_num [refLimits, refState])
    (by unfold TireLimits.Fy_max
        rw [effective_friction_ref.2]
        norm_num [refLimits, refState])

/-- C1 counterexample: at the example state the lateral maximum is
`Fy_max = mu_y * Fz = 1.05 * 4000 = 4200 N`, not the 4400 N the claim
asserts (the performance compound has `mu_y = 1.05`, not 1.1). -/
theorem ellipse_example_Fy_max_ne :
    (refLimits.friction_ellipse_limit 1500 2000).Fy_max = 4200 ∧ (4200 : ℝ) ≠ 4400 := by
  constructor
  · simp only [friction_ellipse_limit_eq]
    unfold TireLimits.Fy_max
    rw [effective_friction_ref.2]
    norm_num [refLimits, refState]
  · norm_num

/-- C1 (amended): at the example state mu_x = 1.1 and mu_y = 1.05 (no load,
temperature, wear or pressure penalty at reference conditions), so
Fx_max = 4400 N, Fy_max = 4200 N, usage = sqrt((1500/4400)² + (2000/4200)²)
≈ 0.586, and within_limit = true. -/
theorem ellipse_example_values :
    refLimits.get_effective_friction.mu_x = 1.1 ∧
    refLimits.get_effective_friction.mu_y = 1.05 ∧
    (refLimits.friction_ellipse_limit 1500 2000).Fx_max = 4400 ∧
    (refLimits.friction_ellipse_limit 1500 2000).Fy_max = 4200 ∧
    (refLimits.friction_ellipse_limit 1500 2000).usage =
      .fin (Real.sqrt ((1500 / 4400) ^ 2 + (2000 / 4200) ^ 2)) ∧
    0.585 < Real.sqrt ((1500 / 4400 : ℝ) ^ 2 + (2000 / 4200) ^ 2) ∧
    Real.sqrt ((1500 / 4400 : ℝ) ^ 2 + (2000 / 4200) ^ 2) < 0.586 ∧
    (refLimits.friction_ellipse_limit 1500 2000).within_limit := by
  have hmux := effective_friction_ref.1
  have hmuy := effective_friction_ref.2
  have hFx : refLimits.Fx_max = 4400 := by
    unfold TireLimits.Fx_max
    rw [hmux]
    norm_num [refLimits, refState]
  have hFy : refLimits.Fy_max = 4200 := by
    unfold TireLimits.Fy_max
    rw [hmuy]
    norm_num [refLimits, refState]
  have hfx : fxRatioSqE refLimits 1500 = .fin ((1500 / 4400) ^ 2) := by
    unfold fxRatioSqE
    rw [hFx]
    norm_num
  have hfy : fyRatioSqE refLimits 2000 = .fin ((2000 / 4200) ^ 2) := by
    unfold fyRatioSqE
    rw [hFy]
    norm_num
  have hev : ellipseValueE refLimits 1500 2000 =
      .fin ((1500 / 4400) ^ 2 + (2000 / 4200) ^ 2) := by
    unfold ellipseValueE
    rw [hfx, hfy]
  have hus : usageE refLimits 1500 2000 =
      .fin (Real.sqrt ((1500 / 4400) ^ 2 + (2000 / 4200) ^ 2)) := by
    unfold usageE
    rw [hev]
  refine ⟨hmux, hmuy, ?_, ?_, ?_, ?_, ?_, ?_⟩
  · simp only [friction_ellipse_limit_eq]
    exact hFx
  · simp only [friction_ellipse_limit_eq]
    exact hFy
  · simp only [friction_ellipse_limit_eq]
    exact hus
  · rw [Real.lt_sqrt (by norm_num)]
    norm_num
  · rw [Real.sqrt_lt' (by norm_num)]
    norm_num
  · simp only [friction_ellipse_limit_eq]
    rw [hev]
    norm_num [FVal.leR]

/-- C9: the margin block of `stability_assessment` computes
`max_force = Fz / sqrt((cosθ/mu_x)² + (sinθ/mu_y)²)` at the current force
angle (0 if either mu is ≈0), `margin = max_force - hypot(Fx, Fy)`, and the
percentage margin is `100·margin/max_force` when `max_force > 1e-9`, 0 when
both `max_force` and the current force are ≈0, and -100 when `max_force` is
≈0 but the current force is not. -/
theorem margin_formula (tl : TireLimits) (Fx Fy wt : ℝ) :
    ((tl.stability_assessment Fx Fy wt).max_force_at_angle =
      tl.state.vertical_load /
        Real.sqrt ((Real.cos (currentAngle Fx Fy) / tl.get_effective_friction.mu_x) ^ 2 +
          (Real.sin (currentAngle Fx Fy) / tl.get_effective_friction.mu_y) ^ 2)) ∧
    ((tl.get_effective_friction.mu_x ≤ 1e-9 ∨ tl.get_effective_friction.mu_y ≤ 1e-9) →
      (tl.stability_assessment Fx Fy wt).max_force_at_angle = 0) ∧
    ((tl.stability_assessment Fx Fy wt).force_margin_N =
      (tl.stability_assessment Fx Fy wt).max_force_at_angle - Real.sqrt (Fx ^ 2 + Fy ^ 2)) ∧
    (1e-9 < (tl.stability_assessment Fx Fy wt).max_force_at_angle →
      (tl.stability_assessment Fx Fy wt).force_margin_pct =
        100 * (tl.stability_assessment Fx Fy wt).force_margin_N /
          (tl.stability_assessment Fx Fy wt).max_force_at_angle) ∧
    ((tl.stability_assessment Fx Fy wt).max_force_at_angle ≤ 1e-9 →
      Real.sqrt (Fx ^ 2 + Fy ^ 2) < 1e-9 →
      (tl.stability_assessment Fx Fy wt).force_margin_pct = 0) ∧
    ((tl.stability_assessment Fx Fy wt).max_force_at_angle ≤ 1e-9 →
      1e-9 ≤ Real.sqrt (Fx ^ 2 + Fy ^ 2) →
      (tl.stability_assessment Fx Fy wt).force_margin_pct = -100) := by
  have hb := effective_friction_bounds tl
  have hμx : (1e-9 : ℝ) < tl.get_effective_friction.mu_x := by linarith [hb.1]
  have hμy : (1e-9 : ℝ) < tl.get_effective_friction.mu_y := by linarith [hb.2.2.1]
  have ht1 : term1S tl Fx Fy =
      .fin ((Real.cos (currentAngle Fx Fy) / tl.get_effective_friction.mu_x) ^ 2) := by
    unfold term1S
    rw [if_pos hμx]
  have ht2 : term2S tl Fx Fy =
      .fin ((Real.sin (currentAngle Fx Fy) / tl.get_effective_friction.mu_y) ^ 2) := by
    unfold term2S
    rw [if_pos hμy]
  have hxpos : 0 < tl.get_effective_friction.mu_x := by linarith [hb.1]
  have hypos : 0 < tl.get_effective_friction.mu_y := by linarith [hb.2.2.1]
  have hμx4 : tl.get_effective_friction.mu_x ^ 2 ≤ 4 := by nlinarith [hb.1, hb.2.1]
  have hμy4 : tl.get_effective_friction.mu_y ^ 2 ≤ 4 := by nlinarith [hb.2.2.1, hb.2.2.2]
  have hcos : (Real.cos (currentAngle Fx Fy)) ^ 2 ≤
      4 * (Real.cos (currentAngle Fx Fy) / tl.get_effective_friction.mu_x) ^ 2 := by
    rw [div_pow, mul_div_assoc']
    rw [le_div_iff (by positivity)]
    nlinarith [sq_nonneg (Real.cos (currentAngle Fx Fy)), hμx4]
  have hsin : (Real.sin (currentAngle Fx Fy)) ^ 2 ≤
      4 * (Real.sin (currentAngle Fx Fy) / tl.get_effective_friction.mu_y) ^ 2 := by
    rw [div_pow, mul_div_assoc']
    rw [le_div_iff (by positivity)]
    nlinarith [sq_nonneg (Real.sin (currentAngle Fx Fy)), hμy4]
  have hquarter : (1 / 4 : ℝ) ≤
      (Real.cos (currentAngle Fx Fy) / tl.get_effective_friction.mu_x) ^ 2 +
        (Real.sin (currentAngle Fx Fy) / tl.get_effective_friction.mu_y) ^ 2 := by
    have hpyth := Real.sin_sq_add_cos_sq (currentAngle Fx Fy)
    linarith
  have hdenom : (1e-9 : ℝ) < Real.sqrt
      ((Real.cos (currentAngle Fx Fy) / tl.get_effective_friction.mu_x) ^ 2 +
        (Real.sin (currentAngle Fx Fy) / tl.get_effective_friction.mu_y) ^ 2) := by
    rw [Real.lt_sqrt (by norm_num)]
    nlinarith
  have hmf : maxForceS tl Fx Fy =
      tl.state.vertical_load /
        Real.sqrt ((Real.cos (currentAngle Fx Fy) / tl.get_effective_friction.mu_x) ^ 2 +
          (Real.sin (currentAngle Fx Fy) / tl.get_effective_friction.mu_y) ^ 2) := by
    unfold maxForceS
    rw [ht1, ht2]
    exact if_pos hdenom
  simp only [stability_assessment_eq]
  refine ⟨hmf, ?_, ?_, ?_, ?_, ?_⟩
  · intro hor
    rcases hor with hle | hle
    · exact absurd hle (not_le.2 hμx)
    · exact absurd hle (not_le.2 hμy)
  · unfold marginS currentForceS
    ring
  · intro hgt
    unfold marginPctS
    rw [if_pos hgt]
    ring
  · intro hle hcf
    unfold marginPctS
    rw [if_neg (not_lt.2 hle)]
    unfold currentForceS
    rw [if_pos hcf]
    norm_num
  · intro hle hcf
    unfold marginPctS
    rw [if_neg (not_lt.2 hle)]
    unfold currentForceS
    rw [if_neg (not_lt.2 hcf)]
    norm_num

/-- C2: `TireLimits` construction validates first: it succeeds if and only
if every bound holds, and on failure the raised error names the offending
field and its violated bound. -/
theorem validation_iff_bounds (s : TireState) :
    (TireLimits.init s = .ok ⟨s⟩ ↔ s.validBounds) ∧
    ((∃ e, TireLimits.init s = .error e) ↔ ¬ s.validBounds) ∧
    (∀ e, TireLimits.init s = .error e → offendingField e s) := by
  unfold TireLimits.init TireState.validate TireState.validBounds offendingField
  split_ifs with h1 h2 h3 h4 <;> dsimp only [Except.map] <;> refine ⟨?_, ?_, ?_⟩ <;>
  first
    | exact iff_of_false (fun hh => Except.noConfusion hh) fun hv => absurd hv.1 (not_lt.2 h1)
    | exact iff_of_false (fun hh => Except.noConfusion hh) fun hv => h2 hv.2.1
    | exact iff_of_false (fun hh => Except.noConfusion hh) fun hv => h3 hv.2.2.1
    | exact iff_of_false (fun hh => Except.noConfusion hh) fun hv => h4 hv.2.2.2
    | exact iff_of_true ⟨_, rfl⟩ fun hv => absurd hv.1 (not_lt.2 h1)
    | exact iff_of_true ⟨_, rfl⟩ fun hv => h2 hv.2.1
    | exact iff_of_true ⟨_, rfl⟩ fun hv => h3 hv.2.2.1
    | exact iff_of_true ⟨_, rfl⟩ fun hv => h4 hv.2.2.2
    | exact iff_of_true rfl ⟨not_le.1 h1, h2, h3, h4⟩
    | exact iff_of_false (fun hh => Except.noConfusion hh.choose_spec)
        (not_not.2 ⟨not_le.1 h1, h2, h3, h4⟩)
    | (intro e he
       exact Except.noConfusion he)
    | (intro e he
       injection he with h
       first
         | exact Or.inl ⟨h.symm, h1⟩
         | exact Or.inr (Or.inl ⟨h.symm, h2⟩)
         | exact Or.inr (Or.inr (Or.inl ⟨h.symm, h3⟩))
         | exact Or.inr (Or.inr (Or.inr ⟨h.symm, h4⟩)))

/-- C4: the temperature factor is non-decreasing from the cold breakpoint up
to the optimal breakpoint and non-increasing beyond it; at or below the cold
breakpoint it equals `cold_mu`, at or above the hot breakpoint it equals
`hot_mu`, and at the optimal temperature it equals 1.0 (all other state
fields held fixed). -/
theorem temp_factor_piecewise (s : TireState) (t t' : ℝ) :
    (TEMP_PARAMS.cold_temp ≤ t → t ≤ t' → t' ≤ TEMP_PARAMS.opt_temp →
      (TireLimits.mk { s with temperature := t }).calculate_temp_factor ≤
        (TireLimits.mk { s with temperature := t' }).calculate_temp_factor) ∧
    (TEMP_PARAMS.opt_temp ≤ t → t ≤ t' →
      (TireLimits.mk { s with temperature := t' }).calculate_temp_factor ≤
        (TireLimits.mk { s with temperature := t }).calculate_temp_factor) ∧
    (t ≤ TEMP_PARAMS.cold_temp →
      (TireLimits.mk { s with temperature := t }).calculate_temp_factor =
        TEMP_PARAMS.cold_mu) ∧
    (TEMP_PARAMS.hot_temp ≤ t →
      (TireLimits.mk { s with temperature := t }).calculate_temp_factor =
        TEMP_PARAMS.hot_mu) ∧
    (TireLimits.mk { s with temperature := TEMP_PARAMS.opt_temp }).calculate_temp_factor
      = 1.0 := by
  simp only [TireLimits.calculate_temp_factor, TEMP_PARAMS]
  refine ⟨?_, ?_, ?_, ?_, ?_⟩ <;> intros <;> split_ifs <;> first | linarith | norm_num

/-- C5: with Fx = Fy = 0 both the friction-ellipse check and the
combined-slip check (any coupling factor) report `within_limit` and a usage
of exactly 0, for every validated state, including when a maximum force is
numerically zero. -/
theorem zero_force_zero_usage (tl : TireLimits) (cf : ℝ) (h : tl.state.validBounds) :
    (tl.friction_ellipse_limit 0 0).within_limit ∧
    (tl.friction_ellipse_limit 0 0).usage = .fin 0 ∧
    (tl.combined_slip_limit 0 0 cf).within_limit ∧
    (tl.combined_slip_limit 0 0 cf).usage = .fin 0 := by
  have h0 : ¬ ((1e-9 : ℝ) < |(0 : ℝ)|) := by norm_num
  refine ⟨?_, ?_, ?_, ?_⟩ <;>
    simp only [friction_ellipse_limit_eq, combined_slip_limit_eq] <;>
    simp only [usageE, ellipseValueE, fxRatioSqE, fyRatioSqE,
      usageC, usageSqC, fxRatioSqC, fyRatioSqC] <;>
    split_ifs <;>
    first
      | exact absurd ‹(1e-9 : ℝ) < |(0 : ℝ)|› h0
      | norm_num [FVal.leR]

/-- C7: `stability_assessment` derives the status solely from the ellipse
check: unstable iff the ellipse check is out of limit, else warning iff the
ellipse usage strictly exceeds the warning threshold, else stable; the
combined-slip usage is reported verbatim but does not enter the decision. -/
theorem status_from_ellipse_only (tl : TireLimits) (Fx Fy wt : ℝ) :
    ((tl.stability_assessment Fx Fy wt).status = .UNSTABLE ↔
      ¬ (tl.friction_ellipse_limit Fx Fy).within_limit) ∧
    ((tl.stability_assessment Fx Fy wt).status = .WARNING ↔
      ((tl.friction_ellipse_limit Fx Fy).within_limit ∧
        (tl.friction_ellipse_limit Fx Fy).usage.gtR wt)) ∧
    ((tl.stability_assessment Fx Fy wt).status = .STABLE ↔
      ((tl.friction_ellipse_limit Fx Fy).within_limit ∧
        ¬ (tl.friction_ellipse_limit Fx Fy).usage.gtR wt)) ∧
    (tl.stability_assessment Fx Fy wt).combined_usage
      = (tl.combined_slip_limit Fx Fy 0.3).usage ∧
    (tl.stability_assessment Fx Fy wt).ellipse_usage
      = (tl.friction_ellipse_limit Fx Fy).usage := by
  simp only [stability_assessment_eq]
  refine ⟨?_, ?_, ?_, trivial, trivial⟩ <;>
  · unfold statusOf
    split_ifs with h1 h2 <;> simp_all

/-- C6: if an axis maximum force is below the 1e-9 threshold while the
corresponding applied force is not, the check reports unbounded usage and
`within_limit = false` instead of throwing — for the ellipse check against
the nominal maxima and for the combined-slip check against the effective
maxima. -/
theorem zero_max_unbounded (tl : TireLimits) (Fx Fy cf : ℝ)
    (h : tl.state.validBounds) :
    (|(tl.friction_ellipse_limit Fx Fy).Fx_max| < 1e-9 → 1e-9 < |Fx| →
      (tl.friction_ellipse_limit Fx Fy).usage = .inf ∧
      ¬ (tl.friction_ellipse_limit Fx Fy).within_limit) ∧
    (|(tl.friction_ellipse_limit Fx Fy).Fy_max| < 1e-9 → 1e-9 < |Fy| →
      (tl.friction_ellipse_limit Fx Fy).usage = .inf ∧
      ¬ (tl.friction_ellipse_limit Fx Fy).within_limit) ∧
    ((tl.combined_slip_limit Fx Fy cf).Fx_max_effective < 1e-9 → 1e-9 < |Fx| →
      (tl.combined_slip_limit Fx Fy cf).usage = .inf ∧
      ¬ (tl.combined_slip_limit Fx Fy cf).within_limit) ∧
    ((tl.combined_slip_limit Fx Fy cf).Fy_max_effective < 1e-9 → 1e-9 < |Fy| →
      (tl.combined_slip_limit Fx Fy cf).usage = .inf ∧
      ¬ (tl.combined_slip_limit Fx Fy cf).within_limit) := by
  simp only [friction_ellipse_limit_eq, combined_slip_limit_eq]
  refine ⟨fun ha hb => ?_, fun ha hb => ?_, fun ha hb => ?_, fun ha hb => ?_⟩
  · have hfx : fxRatioSqE tl Fx = .inf := by
      unfold fxRatioSqE
      rw [if_pos ha, if_pos hb]
    have hev := ellipseValueE_inf_left tl Fx Fy hfx
    exact ⟨usageE_inf tl Fx Fy hev, by rw [hev]; exact not_leR_inf _⟩
  · have hfy : fyRatioSqE tl Fy = .inf := by
      unfold fyRatioSqE
      rw [if_pos ha, if_pos hb]
    have hev := ellipseValueE_inf_right tl Fx Fy hfy
    exact ⟨usageE_inf tl Fx Fy hev, by rw [hev]; exact not_leR_inf _⟩
  · have hfx : fxRatioSqC tl Fx Fy cf = .inf := by
      unfold fxRatioSqC
      rw [if_pos ha, if_pos hb]
    have hev := usageSqC_inf_left tl Fx Fy cf hfx
    exact ⟨usageC_inf tl Fx Fy cf hev, by rw [hev]; exact not_leR_inf _⟩
  · have hfy : fyRatioSqC tl Fx Fy cf = .inf := by
      unfold fyRatioSqC
      rw [if_pos ha, if_pos hb]
    have hev := usageSqC_inf_right tl Fx Fy cf hfy
    exact ⟨usageC_inf tl Fx Fy cf hev, by rw [hev]; exact not_leR_inf _⟩

/-- Witness for C6 at a validated state with Fz = 1e-10 N, whose maxima all
fall below the 1e-9 threshold. -/
theorem zero_max_unbounded_witness :
    ((|((TireLimits.mk tinyState).friction_ellipse_limit 5 0).Fx_max| < 1e-9 → 1e-9 < |(5 : ℝ)| →
      ((TireLimits.mk tinyState).friction_ellipse_limit 5 0).usage = .inf ∧
      ¬ ((TireLimits.mk tinyState).friction_ellipse_limit 5 0).within_limit) ∧
    (|((TireLimits.mk tinyState).friction_ellipse_limit 5 0).Fy_max| < 1e-9 → 1e-9 < |(0 : ℝ)| →
      ((TireLimits.mk tinyState).friction_ellipse_limit 5 0).usage = .inf ∧
      ¬ ((TireLimits.mk tinyState).friction_ellipse_limit 5 0).within_limit) ∧
    (((TireLimits.mk tinyState).combined_slip_limit 5 0 0.3).Fx_max_effective < 1e-9 → 1e-9 < |(5 : ℝ)| →
      ((TireLimits.mk tinyState).combined_slip_limit 5 0 0.3).usage = .inf ∧
      ¬ ((TireLimits.mk tinyState).combined_slip_limit 5 0 0.3).within_limit) ∧
    (((TireLimits.mk tinyState).combined_slip_limit 5 0 0.3).Fy_max_effective < 1e-9 → 1e-9 < |(0 : ℝ)| →
      ((TireLimits.mk tinyState).combined_slip_limit 5 0 0.3).usage = .inf ∧
      ¬ ((TireLimits.mk tinyState).combined_slip_limit 5 0 0.3).within_limit)) :=
  zero_max_unbounded (TireLimits.mk tinyState) 5 0 0.3
    (by norm_num [TireState.validBounds, tinyState])

/-- Witness for C5 at the reference state. -/
theorem zero_force_zero_usage_witness :
    refState.validBounds ∧
    ((refLimits.friction_ellipse_limit 0 0).within_limit ∧
      (refLimits.friction_ellipse_limit 0 0).usage = .fin 0 ∧
      (refLimits.combined_slip_limit 0 0 0.3).within_limit ∧
      (refLimits.combined_slip_limit 0 0 0.3).usage = .fin 0) :=
  ⟨by norm_num [TireState.validBounds, refState],
    zero_force_zero_usage refLimits 0.3 (by norm_num [TireState.validBounds, refState, refLimits])⟩

end
